import Mathlib

/-!
Verification of the RideKeeper risk-driven outreach orchestrator.

Shallow embedding of the backend services:
* `RiskScoreService` (riskScore.service) — deterministic risk scoring,
* `AIRiskScoreService` (aiRiskScore.service) — confidence-weighted adjustment
  layer with caching,
* `ClaudeService` (claude.service) — two-tier intent resolution,
* `SchedulerService` (scheduler.service) — offer sweep and status-sync sweep,
* `UberHealthService` / ride routes — ride cancellation,
* `TwilioService` / sms routes — inbound message handling.

JavaScript numbers are embedded as `Nat`/`Int`/`ℚ` (all score arithmetic in
the source stays small and exact).  JavaScript truthiness on strings
(`''` is falsy) is modelled explicitly where the source relies on it.
Database rows are Lean structures; tables are lists (newest first where the
source orders by `createdAt desc`); the persistent store is threaded as
explicit state.
-/

namespace RideKeeper

/-- Housing status constants from riskScore.service.  `OTHER` stands for any
string different from the three named constants (the source's `default`
switch branch). -/
inductive HousingStatus
  | HOMELESS
  | UNSTABLY_HOUSED
  | HOUSED
  | OTHER
deriving DecidableEq, Repr

/-- Risk categories from riskScore.service. -/
inductive RiskCategory
  | LOW
  | MEDIUM
  | HIGH
deriving DecidableEq, Repr

/-- Patient attributes used by the risk engine (patient row fields
`housingStatus`, `distanceFromClinic`, `phoneNumber`).  Distance is a
JavaScript float, embedded as `ℚ`; `phoneNumber` is nullable. -/
structure Patient where
  housingStatus : HousingStatus
  distanceFromClinic : Option ℚ
  phoneNumber : Option String
deriving DecidableEq, Repr

/-- `getHousingPoints` from riskScore.service: HOMELESS 40,
UNSTABLY_HOUSED 25, HOUSED 0, default 0. -/
def getHousingPoints : HousingStatus → Nat
  | .HOMELESS => 40
  | .UNSTABLY_HOUSED => 25
  | .HOUSED => 0
  | .OTHER => 0

/-- `getDistancePoints` from riskScore.service: null distance 20,
`> 5` gives 30, `>= 2` gives 20, otherwise 10. -/
def getDistancePoints : Option ℚ → Nat
  | none => 20
  | some d => if 5 < d then 30 else if 2 ≤ d then 20 else 10

/-- `getPhonePoints` from riskScore.service: `phoneNumber ? 0 : 25`.
JavaScript truthiness: `null` and the empty string are both falsy. -/
def getPhonePoints : Option String → Nat
  | none => 25
  | some s => if s = "" then 25 else 0

/-- `getNoShowCount` from riskScore.service: counts `NoShowHistory` rows with
`occurredAt >= sixMonthsAgo`.  The six-months-ago instant is passed in as
`cutoff`; occurrence timestamps are integers (minutes). -/
def getNoShowCount (cutoff : Int) (occurred : List Int) : Nat :=
  (occurred.filter (fun t => cutoff ≤ t)).length

/-- `getNoShowPoints` from riskScore.service: 15 points per no-show,
capped at 60. -/
def getNoShowPoints (noShowCount : Nat) : Nat :=
  min (noShowCount * 15) 60

/-- `getRiskCategory` from riskScore.service: `<= 30` LOW, `<= 60` MEDIUM,
otherwise HIGH. -/
def getRiskCategory (score : Nat) : RiskCategory :=
  if score ≤ 30 then .LOW else if score ≤ 60 then .MEDIUM else .HIGH

/-- One itemized factor of the risk breakdown (`RiskFactor` without the
human-readable `reason` text, which no claim consults). -/
structure RiskFactor where
  factor : String
  points : Nat
deriving DecidableEq, Repr

/-- `RiskScoreResult` from riskScore.service. -/
structure RiskScoreResult where
  score : Nat
  category : RiskCategory
  factors : List RiskFactor
deriving DecidableEq, Repr

/-- `RiskScoreService.calculateRiskScore`: accumulates the four factor
contributions (pushing a factor entry only when its points are positive),
caps the total at 100 and classifies it.  The windowed no-show count is the
`getNoShowCount` of the patient's no-show history. -/
def calculateRiskScore (patient : Patient) (cutoff : Int)
    (noShowHistory : List Int) : RiskScoreResult :=
  let housingPoints := getHousingPoints patient.housingStatus
  let f1 : List RiskFactor :=
    if housingPoints > 0 then [⟨"Housing Status", housingPoints⟩] else []
  let distancePoints := getDistancePoints patient.distanceFromClinic
  let f2 : List RiskFactor :=
    if distancePoints > 0 then [⟨"Distance from Clinic", distancePoints⟩] else []
  let phonePoints := getPhonePoints patient.phoneNumber
  let f3 : List RiskFactor :=
    if phonePoints > 0 then [⟨"Phone Access", phonePoints⟩] else []
  let noShowPoints := getNoShowPoints (getNoShowCount cutoff noShowHistory)
  let f4 : List RiskFactor :=
    if noShowPoints > 0 then [⟨"Previous No-Shows", noShowPoints⟩] else []
  let totalScore :=
    min (housingPoints + distancePoints + phonePoints + noShowPoints) 100
  { score := totalScore
    category := getRiskCategory totalScore
    factors := f1 ++ f2 ++ f3 ++ f4 }

/-- Modelled from the spec wording of claim C1: the housing contribution
(stable 0, unstable +25, houseless +40). -/
def spec_housingContribution : HousingStatus → Nat
  | .HOMELESS => 40
  | .UNSTABLY_HOUSED => 25
  | _ => 0

/-- Modelled from the spec wording of claim C1: the distance contribution
(unknown +20, more than 5 units +30, between 2 and 5 +20, below 2 +10). -/
def spec_distanceContribution : Option ℚ → Nat
  | none => 20
  | some d => if d > 5 then 30 else if 2 ≤ d ∧ d ≤ 5 then 20 else 10

/-- Modelled from the spec wording of claim C1: contact channel absent +25,
present 0. -/
def spec_contactContribution (phone : Option String) : Nat :=
  match phone with
  | none => 25
  | some s => if s = "" then 25 else 0

/-- Modelled from the spec wording of claim C1: +15 per no-show in the
trailing window, capped at +60. -/
def spec_noShowContribution (windowCount : Nat) : Nat :=
  min (windowCount * 15) 60

/-! ### Confidence-weighted adjustment layer (aiRiskScore.service) -/

/-- `AIRiskAssessment` from aiRiskScore.service.  Scores and confidence are
JavaScript numbers; after sanitization they are integers, embedded as `Int`. -/
structure AIRiskAssessment where
  adjustedScore : Int
  adjustment : Int
  confidence : Int
  reasoning : String
  recommendations : List String
  optimalContactTime : String
  riskFactors : List String
deriving DecidableEq, Repr

/-- The raw JSON object parsed out of the inference reply in
`getAIAssessment` before validation.  Each field may be absent (`none`). -/
structure RawAIResult where
  adjustedScore : Option Int
  adjustment : Option Int
  confidence : Option Int
  reasoning : Option String
  recommendations : Option (List String)
  optimalContactTime : Option String
  riskFactors : Option (List String)
deriving DecidableEq, Repr

/-- JavaScript `x || d` on a numeric field: absent values and `0` are falsy. -/
def jsOrInt (v : Option Int) (d : Int) : Int :=
  match v with
  | none => d
  | some x => if x = 0 then d else x

/-- JavaScript `x || d` on a string field: absent values and `""` are falsy. -/
def jsOrStr (v : Option String) (d : String) : String :=
  match v with
  | none => d
  | some s => if s = "" then d else s

/-- The validate-and-sanitize step of `AIRiskScoreService.getAIAssessment`:
clamps `adjustedScore` and `confidence` to 0..100, clamps `adjustment` to
-20..20, truncates `recommendations` and `riskFactors` to 5 entries
(`slice(0, 5)`, with non-arrays replaced by `[]`), and substitutes defaults
for falsy fields. -/
def sanitizeAIResult (baseScore : Nat) (r : RawAIResult) : AIRiskAssessment :=
  { adjustedScore := max 0 (min 100 (jsOrInt r.adjustedScore baseScore))
    adjustment := max (-20) (min 20 (jsOrInt r.adjustment 0))
    confidence := max 0 (min 100 (jsOrInt r.confidence 50))
    reasoning := jsOrStr r.reasoning "AI assessment completed"
    recommendations := match r.recommendations with
      | some l => l.take 5
      | none => []
    optimalContactTime := jsOrStr r.optimalContactTime "Morning"
    riskFactors := match r.riskFactors with
      | some l => l.take 5
      | none => [] }

/-- JavaScript `Math.round`: round half toward positive infinity. -/
def jsRound (q : ℚ) : Int := ⌊q + 1 / 2⌋

/-- `EnhancedRiskScoreResult` from aiRiskScore.service. -/
structure EnhancedRiskScoreResult where
  score : Nat
  category : RiskCategory
  factors : List RiskFactor
  finalScore : Int
  aiAssessment : Option AIRiskAssessment
  isAIEnhanced : Bool
  aiAvailable : Bool
deriving DecidableEq, Repr

/-- `AIRiskScoreService.combineScores`: confidence at least 80 trusts the
adjusted score, confidence at least 50 averages base and adjusted with
`Math.round`, lower confidence keeps the base score; the category is then
recomputed from the final score with the 30/60 thresholds. -/
def combineScores (baseResult : RiskScoreResult) (ai : AIRiskAssessment) :
    EnhancedRiskScoreResult :=
  let finalScore : Int :=
    if 80 ≤ ai.confidence then ai.adjustedScore
    else if 50 ≤ ai.confidence then
      jsRound (((baseResult.score : ℚ) + (ai.adjustedScore : ℚ)) / 2)
    else (baseResult.score : Int)
  let category : RiskCategory :=
    if finalScore ≤ 30 then .LOW
    else if finalScore ≤ 60 then .MEDIUM
    else .HIGH
  { score := baseResult.score
    category := category
    factors := baseResult.factors
    finalScore := finalScore
    aiAssessment := some ai
    isAIEnhanced := true
    aiAvailable := true }

/-- An `AIRiskCache` row.  `expiresAt` and all times are integer minutes. -/
structure AIRiskCacheEntry where
  aiScore : Int
  confidence : Int
  reasoning : String
  recommendations : List String
  riskFactors : List String
  optimalContactTime : Option String
  expiresAt : Int
deriving DecidableEq, Repr

/-- The `AIRiskCache` table, keyed by `appointmentId` (a unique key). -/
abbrev CacheMap := List (String × AIRiskCacheEntry)

/-- `findUnique` on the cache table. -/
def cacheLookup (c : CacheMap) (apptId : String) : Option AIRiskCacheEntry :=
  (c.find? (fun p => p.1 = apptId)).map (fun p => p.2)

/-- `AIRiskScoreService.getCachedAssessment`: returns the entry when present
and not expired (`new Date() > cached.expiresAt` means expired), rebuilt as
an assessment with `adjustment := 0` (not stored in the cache). -/
def getCachedAssessment (now : Int) (c : CacheMap) (apptId : String) :
    Option AIRiskAssessment :=
  match cacheLookup c apptId with
  | none => none
  | some e =>
    if now > e.expiresAt then none
    else some
      { adjustedScore := e.aiScore
        adjustment := 0
        confidence := e.confidence
        reasoning := e.reasoning
        recommendations := e.recommendations
        optimalContactTime := jsOrStr e.optimalContactTime "Morning"
        riskFactors := e.riskFactors }

/-- `upsert` on the cache table. -/
def cacheUpsert (c : CacheMap) (apptId : String) (e : AIRiskCacheEntry) :
    CacheMap :=
  if (c.find? (fun p => p.1 = apptId)).isSome then
    c.map (fun p => if p.1 = apptId then (apptId, e) else p)
  else (apptId, e) :: c

/-- `AIRiskScoreService.cacheAssessment`: stores the assessment with
`expiresAt` set 24 hours (1440 minutes) after the current instant. -/
def cacheAssessment (now : Int) (c : CacheMap) (apptId : String)
    (a : AIRiskAssessment) : CacheMap :=
  cacheUpsert c apptId
    { aiScore := a.adjustedScore
      confidence := a.confidence
      reasoning := a.reasoning
      recommendations := a.recommendations
      riskFactors := a.riskFactors
      optimalContactTime := some a.optimalContactTime
      expiresAt := now + 24 * 60 }

/-- `AIRiskScoreService.invalidateCache`: deletes the cache row for the
appointment (ignoring a missing row). -/
def invalidateCache (c : CacheMap) (apptId : String) : CacheMap :=
  c.filter (fun p => p.1 ≠ apptId)

/-- `AIRiskScoreService.calculateAIEnhancedRiskScore`.  `externalReply` is the
inference provider's parsed reply (`none` embeds the error / unparsable-output
path).  Returns the enhanced result, the updated cache and the number of
external inference invocations performed. -/
def calculateAIEnhancedRiskScore (now : Int) (isEnabled clientAvailable : Bool)
    (apptId : String) (patient : Patient) (cutoff : Int)
    (noShowHistory : List Int) (externalReply : Option RawAIResult)
    (cache : CacheMap) : EnhancedRiskScoreResult × CacheMap × Nat :=
  let baseResult := calculateRiskScore patient cutoff noShowHistory
  let fallback : Bool → EnhancedRiskScoreResult := fun _ =>
    { score := baseResult.score
      category := baseResult.category
      factors := baseResult.factors
      finalScore := (baseResult.score : Int)
      aiAssessment := none
      isAIEnhanced := false
      aiAvailable := false }
  if ¬ (isEnabled ∧ clientAvailable) then (fallback true, cache, 0)
  else
    match getCachedAssessment now cache apptId with
    | some cached => (combineScores baseResult cached, cache, 0)
    | none =>
      match externalReply with
      | some raw =>
        let ai := sanitizeAIResult baseResult.score raw
        (combineScores baseResult ai, cacheAssessment now cache apptId ai, 1)
      | none => (fallback true, cache, 1)

/-! ### Conversational intent resolver (claude.service)

The deterministic tier `ruleBasedParsing` is embedded pattern by pattern:
exact-match regexes (`/^yes$/`) become string equality on the cleaned text,
anchored-start regexes become prefix tests, and unanchored regexes become
substring tests, each on the same normalized form the source computes.  The
extracted `alternativePickupLocation` / `preferredTime` strings are not
modelled (no claim consults them); only the match tests that select the
intent and confidence are. -/

inductive PatientIntent
  | CONFIRM_RIDE
  | DECLINE_RIDE
  | RESCHEDULE
  | QUESTION
  | UNKNOWN
deriving DecidableEq, Repr

/-- `ParsedPatientResponse` (intent, confidence and echoed raw message). -/
structure ParsedPatientResponse where
  intent : PatientIntent
  confidence : ℚ
  rawMessage : String
deriving DecidableEq, Repr

/-- The apostrophe character, used by the optional-apostrophe regexes. -/
def apos : Char := Char.ofNat 39

/-- The apostrophe as a one-character string. -/
def aposS : String := String.mk [apos]

/-- JavaScript regex `\s` on the ASCII range: space, tab, line feed,
carriage return, form feed, vertical tab. -/
def isJsWs (c : Char) : Bool :=
  c == ' ' || c == Char.ofNat 9 || c == Char.ofNat 10 || c == Char.ofNat 13 ||
    c == Char.ofNat 12 || c == Char.ofNat 11

/-- `toLowerCase` (ASCII behaviour). -/
def lowerStr (s : String) : String :=
  String.mk (s.data.map Char.toLower)

/-- JavaScript `trim`: strip leading and trailing whitespace. -/
def trimStr (s : String) : String :=
  String.mk (((s.data.dropWhile isJsWs).reverse.dropWhile isJsWs).reverse)

/-- `replace(/[!?.]+/g, "")`: delete every `!`, `?` and `.`. -/
def stripShoutPunct (s : String) : String :=
  String.mk (s.data.filter (fun c => !(c == '!' || c == '?' || c == '.')))

/-- Worker for whitespace collapsing; the flag records whether the previous
character was whitespace (whose run already emitted its single space). -/
def collapseWsAux : Bool → List Char → List Char
  | _, [] => []
  | prevWs, c :: rest =>
    if isJsWs c then
      if prevWs then collapseWsAux true rest
      else ' ' :: collapseWsAux true rest
    else c :: collapseWsAux false rest

/-- `replace(/\s+/g, " ")`: collapse every whitespace run to one space. -/
def collapseWs (s : String) : String :=
  String.mk (collapseWsAux false s.data)

/-- Substring containment (the unanchored-regex test). -/
def containsSub (hay sub : String) : Bool :=
  (List.range (hay.data.length + 1)).any
    (fun i => sub.data.isPrefixOf (hay.data.drop i))

/-- Prefix test, on underlying character lists. -/
def startsWithStr (s p : String) : Bool :=
  p.data.isPrefixOf s.data

/-- The thumbs-up emoji accepted as a confirmation. -/
def thumbsUp : String := String.mk [Char.ofNat 0x1F44D]

/-- The thumbs-down emoji accepted as a decline. -/
def thumbsDown : String := String.mk [Char.ofNat 0x1F44E]

/-- The exact-match confirmation patterns of `ruleBasedParsing`. -/
def confirmExact : List String :=
  ["yes", "yeah", "yep", "yup", "ok", "okay", "sure", "sounds good", "please",
   "yes please", "y", thumbsUp, "i need a ride", "i want a ride", "book it",
   "lets do it", "definitely", "absolutely"]

/-- The exact-match decline patterns of `ruleBasedParsing` (the regexes
anchored on both sides), with both expansions of each optional apostrophe. -/
def declineExact : List String :=
  ["no", "nope", "nah", "n", "no thanks", "no thank you", "i have a ride",
   "got a ride", "im good", "i" ++ aposS ++ "m good", "im ok",
   "i" ++ aposS ++ "m ok", "cancel", thumbsDown]

/-- Family words of the `^my (friend|...) (is|will) (take|...)` decline
pattern. -/
def famWords : List String :=
  ["friend", "family", "wife", "husband", "son", "daughter", "mom", "dad",
   "brother", "sister"]

/-- Linking verbs of the third-party-driving decline patterns. -/
def auxWords : List String := ["is", "will"]

/-- Driving verbs of the third-party-driving decline patterns (prefix
alternation, so `take` also covers `taking...` continuations). -/
def driveWords : List String := ["take", "taking", "drive", "driving", "pick"]

/-- Decline test: all decline patterns of `ruleBasedParsing` against the
cleaned text.  Anchored-start-only regexes are prefix tests. -/
def declineMatch (s : String) : Bool :=
  declineExact.any (fun p => s == p) ||
  startsWithStr s ("dont need") ||
  startsWithStr s ("don" ++ aposS ++ "t need") ||
  famWords.any (fun f => auxWords.any (fun w => driveWords.any (fun v =>
    startsWithStr s ("my " ++ f ++ " " ++ w ++ " " ++ v)))) ||
  auxWords.any (fun w => driveWords.any (fun v =>
    startsWithStr s ("someone " ++ w ++ " " ++ v))) ||
  ["can", "will"].any (fun a => ["get", "take", "drive"].any (fun b =>
    ["there", "myself"].any (fun c => s == "i " ++ a ++ " " ++ b ++ " " ++ c)))

/-- Confirmation test of `ruleBasedParsing`. -/
def confirmMatch (s : String) : Bool :=
  confirmExact.any (fun p => s == p)

/-- Reschedule test of `ruleBasedParsing`: every pattern is unanchored, so
each becomes a substring test over the alternation's expansions. -/
def rescheduleMatch (s : String) : Bool :=
  containsSub s "reschedule" ||
  ["time", "date", "appointment"].any (fun w =>
    containsSub s ("change the " ++ w) || containsSub s ("change " ++ w)) ||
  ["time", "day", "date"].any (fun w => containsSub s ("different " ++ w)) ||
  containsSub s "cant make it" ||
  containsSub s ("can" ++ aposS ++ "t make it") ||
  ["appointment", "time"].any (fun w =>
    containsSub s ("move the " ++ w) || containsSub s ("move " ++ w)) ||
  ["that", "this"].any (fun a => ["time", "day", "date"].any (fun b =>
    containsSub s ("not " ++ a ++ " " ++ b)))

/-- Question test of `ruleBasedParsing`, applied to the normalized (not
cleaned) text: trailing question mark, leading interrogative word, or leading
`tell me` / `let me know`. -/
def questionMatch (s : String) : Bool :=
  s.data.getLast? == some '?' ||
  ["what", "when", "where", "who", "how", "why", "which", "is", "are", "can",
   "will", "do", "does"].any (fun w => startsWithStr s w) ||
  startsWithStr s "tell me" || startsWithStr s "let me know"

/-- Test for `/pick(?: me)? up (?:at|from) (.+)/i` on the raw message: some
position starts one of the four expansions followed by at least one
non-line-terminator character. -/
def locationMatch (msg : String) : Bool :=
  let hay := (lowerStr msg).data
  (List.range (hay.length + 1)).any (fun i =>
    ["pick up at ", "pick up from ", "pick me up at ", "pick me up from "].any
      (fun k =>
        k.data.isPrefixOf (hay.drop i) &&
        (match (hay.drop i).drop k.data.length with
         | [] => false
         | c :: _ => !(c == Char.ofNat 10 || c == Char.ofNat 13))))

/-- Test for `/(?:at|around|by) (\d{1,2}(?::\d{2})?\s*(?:am|pm)?)/i` on the
raw message: some position starts `at ` / `around ` / `by ` followed by a
digit (everything after the first digit is optional in the regex). -/
def timeMatch (msg : String) : Bool :=
  let hay := (lowerStr msg).data
  (List.range (hay.length + 1)).any (fun i =>
    ["at ", "around ", "by "].any (fun k =>
      k.data.isPrefixOf (hay.drop i) &&
      (match (hay.drop i).drop k.data.length with
       | [] => false
       | c :: _ => c.isDigit)))

/-- `ClaudeService.ruleBasedParsing`: normalize, clean, then test the pattern
groups in the source's priority order. -/
def ruleBasedParsing (message : String) : ParsedPatientResponse :=
  let normalized := trimStr (lowerStr message)
  let cleaned := collapseWs (stripShoutPunct normalized)
  if confirmMatch cleaned then ⟨.CONFIRM_RIDE, 0.95, message⟩
  else if declineMatch cleaned then ⟨.DECLINE_RIDE, 0.95, message⟩
  else if rescheduleMatch cleaned then ⟨.RESCHEDULE, 0.8, message⟩
  else if questionMatch normalized then ⟨.QUESTION, 0.7, message⟩
  else if locationMatch message then ⟨.CONFIRM_RIDE, 0.85, message⟩
  else if timeMatch message then ⟨.CONFIRM_RIDE, 0.7, message⟩
  else ⟨.UNKNOWN, 0.3, message⟩

/-- `ClaudeService.parsePatientResponse`: run the deterministic tier, return
it immediately when its confidence is at least 0.9; otherwise consult the
external classifier when a client is available (`none` embeds the API-error
path, which falls back to the deterministic result).  The second component
counts external inference invocations. -/
def parsePatientResponse (clientAvailable : Bool)
    (externalClassify : String → Option ParsedPatientResponse)
    (message : String) : ParsedPatientResponse × Nat :=
  let rb := ruleBasedParsing message
  if 0.9 ≤ rb.confidence then (rb, 0)
  else if clientAvailable then ((externalClassify message).getD rb, 1)
  else (rb, 0)

/-! ### Messages, outreach dispatcher and scheduler sweeps
(twilio.service, scheduler.service, appointments route)

Message bodies are abbreviated constants — no claim inspects the text, only
direction, phone, appointment association and count.  In test mode `sendSMS`
records the outbound row and succeeds (status DELIVERED). -/

inductive SMSDirection
  | OUTBOUND
  | INBOUND
deriving DecidableEq, Repr

inductive SMSStatus
  | SENT
  | DELIVERED
  | FAILED
  | RECEIVED
deriving DecidableEq, Repr

/-- An `SMSMessage` row (the `twilioSid` column is not modelled — no claim
consults it).  The message table is a `List SMSMessage`, newest first. -/
structure SMSMessage where
  appointmentId : String
  phoneNumber : String
  message : String
  direction : SMSDirection
  status : SMSStatus
deriving DecidableEq, Repr

/-- JavaScript truthiness of a nullable string: `null` and `""` are falsy. -/
def jsStrOpt (v : Option String) : Option String :=
  match v with
  | none => none
  | some s => if s = "" then none else some s

/-- The contact-resolution idiom shared by the sweeps and routes: the
patient's phone when truthy, else the first caseworker's phone when truthy,
else nothing. -/
def contactPhone (patientPhone : Option String) (caseworkerPhones : List String) :
    Option String :=
  match jsStrOpt patientPhone with
  | some p => some p
  | none =>
    match caseworkerPhones.head? with
    | none => none
    | some s => if s = "" then none else some s

inductive AppointmentStatus
  | SCHEDULED
  | CONFIRMED
  | COMPLETED
  | NO_SHOW
  | CANCELLED
deriving DecidableEq, Repr

/-- An appointment joined with its patient and caseworkers, as the offer
sweep and the offer-ride route load it.  `appointmentDate` is in minutes. -/
structure OfferAppt where
  id : String
  appointmentDate : Int
  status : AppointmentStatus
  riskScore : Option Int
  rideOfferSent : Bool
  patientPhone : Option String
  caseworkerPhones : List String
deriving DecidableEq, Repr

/-- The outbound ride-offer row `TwilioService.sendRideOffer` records (body
abbreviated; the source varies the wording by audience). -/
def rideOfferMsg (apptId phone : String) (viaCaseworker : Bool) : SMSMessage :=
  { appointmentId := apptId
    phoneNumber := phone
    message := if viaCaseworker then "ride offer to caseworker" else "ride offer to patient"
    direction := .OUTBOUND
    status := .DELIVERED }

/-- The `where` filter of `SchedulerService.sendRideOffers`: appointment date
in the 24h–25h capture band, status SCHEDULED, `riskScore >= 61` (a null
score never satisfies the filter) and `rideOfferSent = false`. -/
def offerEligible (now : Int) (a : OfferAppt) : Bool :=
  decide (now + 24 * 60 ≤ a.appointmentDate) &&
  decide (a.appointmentDate ≤ now + 25 * 60) &&
  (a.status == AppointmentStatus.SCHEDULED) &&
  (match a.riskScore with
   | some r => decide (61 ≤ r)
   | none => false) &&
  (!a.rideOfferSent)

/-- The per-appointment body of the offer sweep: resolve the contact (skip
the appointment when none), send the offer, and on success set
`rideOfferSent` and emit one RIDE_OFFER_SENT event (the third component
counts emitted events). -/
def processOfferAppt (now : Int) (a : OfferAppt) :
    OfferAppt × List SMSMessage × Nat :=
  if offerEligible now a then
    match contactPhone a.patientPhone a.caseworkerPhones with
    | none => (a, [], 0)
    | some ph =>
      let viaCaseworker := (jsStrOpt a.patientPhone).isNone
      ({ a with rideOfferSent := true }, [rideOfferMsg a.id ph viaCaseworker], 1)
  else (a, [], 0)

/-- `SchedulerService.sendRideOffers`: the offer sweep over the appointment
table, returning the updated table, the outbound messages recorded, and the
number of RIDE_OFFER_SENT events emitted.  The loop treats appointments
independently, so the sweep is the per-appointment body mapped over the
table with messages concatenated and event counts summed. -/
def sendRideOffers (now : Int) (appts : List OfferAppt) :
    List OfferAppt × List SMSMessage × Nat :=
  (appts.map (fun a => (processOfferAppt now a).1),
    (appts.map (fun a => (processOfferAppt now a).2.1)).flatten,
    (appts.map (fun a => (processOfferAppt now a).2.2)).sum)

/-- Outcome of `POST /api/appointments/:id/offer-ride`. -/
inductive OfferRouteOutcome
  | sent (viaCaseworker : Bool)
  | noPhone
deriving DecidableEq, Repr

/-- The manual offer-ride route: resolves the contact (400 NO_PHONE when
none), sends the offer and sets `rideOfferSent` — without consulting the
flag's current value.  (The route's test-mode auto-reply timers and its AI
cache invalidation are outside this operation's send path.) -/
def routeOfferRide (a : OfferAppt) :
    OfferAppt × List SMSMessage × OfferRouteOutcome :=
  match contactPhone a.patientPhone a.caseworkerPhones with
  | none => (a, [], .noPhone)
  | some ph =>
    let viaCaseworker := (jsStrOpt a.patientPhone).isNone
    ({ a with rideOfferSent := true }, [rideOfferMsg a.id ph viaCaseworker],
      .sent viaCaseworker)

/-! ### Ride lifecycle: status sync and cancellation
(scheduler.service updateRideStatuses, uberHealth.service, rides route) -/

inductive RideStatus
  | SCHEDULED
  | DRIVER_ASSIGNED
  | IN_PROGRESS
  | COMPLETED
  | CANCELLED
deriving DecidableEq, Repr

/-- The external provider's status vocabulary (uberHealth.service). -/
inductive ProviderStatus
  | scheduled
  | driver_assigned
  | en_route
  | arrived
  | in_progress
  | completed
  | cancelled
deriving DecidableEq, Repr

/-- The `statusMap` of `SchedulerService.updateRideStatuses`: provider
vocabulary to internal status.  Every provider status is a key, so the
`|| ride.status` default never fires on a valid provider reply. -/
def statusMap : ProviderStatus → RideStatus
  | .scheduled => .SCHEDULED
  | .driver_assigned => .DRIVER_ASSIGNED
  | .en_route => .DRIVER_ASSIGNED
  | .arrived => .DRIVER_ASSIGNED
  | .in_progress => .IN_PROGRESS
  | .completed => .COMPLETED
  | .cancelled => .CANCELLED

/-- A ride row joined with its appointment's patient contact data, as the
status-sync sweep loads it (driver/vehicle/location columns are written by
the sweep but never read by a claim, so they are not modelled). -/
structure SyncRide where
  id : String
  appointmentId : String
  status : RideStatus
  uberRideId : Option String
  patientPhone : Option String
  caseworkerPhones : List String
deriving DecidableEq, Repr

/-- Observable effects of the status-sync sweep and the cancel route: a
RIDE_STATUS_UPDATE push event, or the driver-arriving SMS dispatch. -/
inductive SyncEvent
  | rideStatusUpdate (rideId : String) (oldStatus newStatus : RideStatus)
  | driverArrivingSMS (rideId : String) (phone : String)
deriving DecidableEq, Repr

/-- The sweep's cohort filter: rides in SCHEDULED, DRIVER_ASSIGNED or
IN_PROGRESS. -/
def isActiveRide : RideStatus → Bool
  | .SCHEDULED => true
  | .DRIVER_ASSIGNED => true
  | .IN_PROGRESS => true
  | .COMPLETED => false
  | .CANCELLED => false

/-- The per-ride body of `SchedulerService.updateRideStatuses`: skip rides
outside the active cohort, without a provider id, or unknown to the provider;
otherwise write the mapped status and — only when it differs from the stored
status — emit RIDE_STATUS_UPDATE, plus the driver-arriving SMS when the
provider status is `arrived` and a contact is reachable.  `provider` is the
provider's status snapshot keyed by `uberRideId`. -/
def syncRide (provider : String → Option ProviderStatus) (r : SyncRide) :
    SyncRide × List SyncEvent :=
  if isActiveRide r.status then
    match r.uberRideId with
    | none => (r, [])
    | some rid =>
      match provider rid with
      | none => (r, [])
      | some u =>
        let newStatus := statusMap u
        if newStatus ≠ r.status then
          let arriving : List SyncEvent :=
            if u == ProviderStatus.arrived then
              match contactPhone r.patientPhone r.caseworkerPhones with
              | some ph => [.driverArrivingSMS r.id ph]
              | none => []
            else []
          ({ r with status := newStatus },
            .rideStatusUpdate r.id r.status newStatus :: arriving)
        else ({ r with status := newStatus }, [])
  else (r, [])

/-- `SchedulerService.updateRideStatuses`: the status-sync sweep over the
ride table against one provider snapshot; rides are independent, so the
sweep is the per-ride body mapped over the table with the emitted events
concatenated. -/
def updateRideStatuses (provider : String → Option ProviderStatus)
    (rides : List SyncRide) : List SyncRide × List SyncEvent :=
  (rides.map (fun r => (syncRide provider r).1),
    (rides.map (fun r => (syncRide provider r).2)).flatten)

/-- Result payload of `UberHealthService.cancelRide`. -/
structure CancelResult where
  success : Bool
  message : String
deriving DecidableEq, Repr

/-- `UberHealthService.cancelRide` on the stored provider status of one ride:
unknown ride fails; completed and in-progress rides are refused with the
status left unchanged; any other status becomes `cancelled` with success. -/
def uberCancelRide (st : Option ProviderStatus) :
    Option ProviderStatus × CancelResult :=
  match st with
  | none => (none, ⟨false, "Ride not found"⟩)
  | some .completed => (some .completed, ⟨false, "Cannot cancel completed ride"⟩)
  | some .in_progress => (some .in_progress, ⟨false, "Cannot cancel ride in progress"⟩)
  | some _ => (some .cancelled, ⟨true, "Ride cancelled successfully"⟩)

/-- Outcome of `POST /api/rides/:id/cancel`. -/
inductive RouteCancelOutcome
  | cancelFailed (message : String)
  | ok
deriving DecidableEq, Repr

/-- The cancel route: when the ride has a provider id, ask the provider to
cancel and surface a 400 CANCEL_FAILED (leaving the ride row untouched) when
it refuses; otherwise set the row to CANCELLED and emit RIDE_STATUS_UPDATE.
Returns the updated ride row, the updated provider snapshot, the outcome and
the emitted events. -/
def routeCancelRide (provider : String → Option ProviderStatus) (r : SyncRide) :
    SyncRide × (String → Option ProviderStatus) × RouteCancelOutcome × List SyncEvent :=
  match r.uberRideId with
  | some rid =>
    let res := uberCancelRide (provider rid)
    if res.2.success then
      ({ r with status := .CANCELLED },
        fun x => if x = rid then res.1 else provider x,
        .ok, [.rideStatusUpdate r.id r.status .CANCELLED])
    else (r, provider, .cancelFailed res.2.message, [])
  | none =>
    ({ r with status := .CANCELLED }, provider, .ok,
      [.rideStatusUpdate r.id r.status .CANCELLED])

/-! ### Inbound message handling (twilio.service handleIncomingSMS and the
SMS webhook route) -/

/-- `findFirst` with `orderBy createdAt desc` over outbound messages to one
phone number: the first match in the newest-first log. -/
def findRecentOutbound (log : List SMSMessage) (sender : String) :
    Option SMSMessage :=
  log.find? (fun m => m.phoneNumber == sender && m.direction == SMSDirection.OUTBOUND)

/-- `TwilioService.handleIncomingSMS`: resolve the appointment as the most
recent outbound message's `appointmentId` (with `|| null`, so an empty id is
treated as absent), and record the inbound row with that id (or `""`).
Returns the resolved id and the updated log. -/
def handleIncomingSMS (log : List SMSMessage) (sender body : String) :
    Option String × List SMSMessage :=
  let apptId : Option String :=
    match findRecentOutbound log sender with
    | none => none
    | some m => if m.appointmentId = "" then none else some m.appointmentId
  (apptId,
    { appointmentId := apptId.getD ""
      phoneNumber := sender
      message := body
      direction := .INBOUND
      status := .RECEIVED } :: log)

/-- An appointment row joined with patient, clinic and caseworkers as the
SMS webhook loads it. -/
structure ApptRec where
  id : String
  appointmentDate : Int
  status : AppointmentStatus
  needsRide : Bool
  patientAddress : Option String
  patientPhone : Option String
  caseworkerPhones : List String
  clinicAddress : String
deriving DecidableEq, Repr

/-- A `Ride` row as created by the webhook's auto-booking branch. -/
structure RideRow where
  id : String
  appointmentId : String
  pickupLocation : String
  dropoffLocation : String
  pickupTime : Int
  status : RideStatus
  uberRideId : Option String
deriving DecidableEq, Repr

/-- The slice of the persistent store the SMS webhook touches, together with
the AI risk cache (which claim C8 observes). -/
structure SysState where
  messages : List SMSMessage
  appointments : List ApptRec
  rides : List RideRow
  cache : CacheMap
deriving Repr

/-- An outbound reply row sent by the webhook (body abbreviated per intent). -/
def webhookReply (apptId sender text : String) : SMSMessage :=
  { appointmentId := apptId
    phoneNumber := sender
    message := text
    direction := .OUTBOUND
    status := .DELIVERED }

/-- `POST /api/sms/webhook`: record the inbound message; stop (empty TwiML)
when no appointment is associated or the associated appointment row is
missing; otherwise resolve the intent and act on it — auto-book a ride and
confirm the appointment on CONFIRM without an existing ride, clear
`needsRide` on DECLINE, and send the intent's reply.  `freshRideId` and
`freshUberId` stand for the generated ride identifiers; the second component
counts external intent-inference invocations.  (The webhook never touches
the AI risk cache.) -/
def smsWebhook (clientAvailable : Bool)
    (externalClassify : String → Option ParsedPatientResponse)
    (freshRideId freshUberId : String) (st : SysState) (sender body : String) :
    SysState × Nat :=
  let handled := handleIncomingSMS st.messages sender body
  match handled.1 with
  | none => ({ st with messages := handled.2 }, 0)
  | some apptId =>
    match st.appointments.find? (fun a => a.id == apptId) with
    | none => ({ st with messages := handled.2 }, 0)
    | some appt =>
      let parsed := parsePatientResponse clientAvailable externalClassify body
      let ride? := st.rides.find? (fun rd => rd.appointmentId == apptId)
      match parsed.1.intent with
      | .CONFIRM_RIDE =>
        match ride? with
        | none =>
          let pickupTime := appt.appointmentDate - 45
          let pickupLocation :=
            (jsStrOpt appt.patientAddress).getD "Main entrance of your current location"
          let newRide : RideRow :=
            { id := freshRideId
              appointmentId := apptId
              pickupLocation := pickupLocation
              dropoffLocation := appt.clinicAddress
              pickupTime := pickupTime
              status := .SCHEDULED
              uberRideId := some freshUberId }
          ({ st with
              messages := webhookReply apptId sender "ride confirmed" :: handled.2
              appointments := st.appointments.map (fun a =>
                if a.id = apptId then { a with status := .CONFIRMED } else a)
              rides := newRide :: st.rides }, parsed.2)
        | some _ =>
          ({ st with
              messages := webhookReply apptId sender "already booked" :: handled.2 },
            parsed.2)
      | .DECLINE_RIDE =>
        ({ st with
            messages := webhookReply apptId sender "no problem" :: handled.2
            appointments := st.appointments.map (fun a =>
              if a.id = apptId then { a with needsRide := false } else a) },
          parsed.2)
      | .RESCHEDULE =>
        ({ st with
            messages := webhookReply apptId sender "call the clinic to reschedule" :: handled.2 },
          parsed.2)
      | .QUESTION =>
        ({ st with
            messages := webhookReply apptId sender "coordinator will reach out" :: handled.2 },
          parsed.2)
      | .UNKNOWN =>
        ({ st with
            messages := webhookReply apptId sender "reply YES or NO" :: handled.2 },
          parsed.2)

/-! ## Theorems -/

/-- Helper: the spec-worded housing contribution coincides with the source's
`getHousingPoints`. -/
theorem spec_housing_eq_code (h : HousingStatus) :
    spec_housingContribution h = getHousingPoints h := by
  cases h <;> rfl

/-- Helper: the spec-worded distance contribution coincides with the source's
`getDistancePoints`. -/
theorem spec_distance_eq_code (d : Option ℚ) :
    spec_distanceContribution d = getDistancePoints d := by
  cases d with
  | none => rfl
  | some q =>
    by_cases h1 : (5 : ℚ) < q
    · simp [spec_distanceContribution, getDistancePoints, h1]
    · by_cases h2 : (2 : ℚ) ≤ q
      · have h3 : q ≤ 5 := le_of_not_lt h1
        simp [spec_distanceContribution, getDistancePoints, h1, h2, h3]
      · simp [spec_distanceContribution, getDistancePoints, h1, h2]

/-- Helper: the thresholds of `getRiskCategory` read back as interval
characterisations. -/
theorem getRiskCategory_iff (s : Nat) :
    (getRiskCategory s = .LOW ↔ s ≤ 30) ∧
    (getRiskCategory s = .MEDIUM ↔ 31 ≤ s ∧ s ≤ 60) ∧
    (getRiskCategory s = .HIGH ↔ 61 ≤ s) := by
  refine ⟨?_, ?_, ?_⟩ <;> unfold getRiskCategory <;> split_ifs <;> simp <;> omega

/-- Claim C1: the deterministic risk score is the sum of the independent
factor contributions — housing (stable 0, unstable +25, houseless +40),
distance (unknown +20, above 5 units +30, 2 to 5 +20, below 2 +10), contact
channel absent +25, and +15 per windowed no-show capped at +60 — capped at
100; the category is LOW iff the score is at most 30, MEDIUM iff 31 to 60,
HIGH iff at least 61; and a houseless patient beyond 5 units with no contact
channel and at least 4 windowed no-shows scores exactly 100, HIGH. -/
theorem C1_risk_score_formula (p : Patient) (cutoff : Int) (hist : List Int) :
    (calculateRiskScore p cutoff hist).score =
      min (spec_housingContribution p.housingStatus +
        spec_distanceContribution p.distanceFromClinic +
        spec_contactContribution p.phoneNumber +
        spec_noShowContribution (getNoShowCount cutoff hist)) 100 ∧
    ((calculateRiskScore p cutoff hist).category = .LOW ↔
      (calculateRiskScore p cutoff hist).score ≤ 30) ∧
    ((calculateRiskScore p cutoff hist).category = .MEDIUM ↔
      31 ≤ (calculateRiskScore p cutoff hist).score ∧
        (calculateRiskScore p cutoff hist).score ≤ 60) ∧
    ((calculateRiskScore p cutoff hist).category = .HIGH ↔
      61 ≤ (calculateRiskScore p cutoff hist).score) ∧
    (p.housingStatus = .HOMELESS →
      (∃ d, p.distanceFromClinic = some d ∧ 5 < d) →
      p.phoneNumber = none →
      4 ≤ getNoShowCount cutoff hist →
      (calculateRiskScore p cutoff hist).score = 100 ∧
        (calculateRiskScore p cutoff hist).category = .HIGH) := by
  have hscore : (calculateRiskScore p cutoff hist).score =
      min (spec_housingContribution p.housingStatus +
        spec_distanceContribution p.distanceFromClinic +
        spec_contactContribution p.phoneNumber +
        spec_noShowContribution (getNoShowCount cutoff hist)) 100 := by
    rw [spec_housing_eq_code, spec_distance_eq_code]
    rfl
  have hcat : (calculateRiskScore p cutoff hist).category =
      getRiskCategory (calculateRiskScore p cutoff hist).score := rfl
  obtain ⟨hl, hm, hh⟩ := getRiskCategory_iff (calculateRiskScore p cutoff hist).score
  refine ⟨hscore, hcat ▸ hl, hcat ▸ hm, hcat ▸ hh, ?_⟩
  rintro h1 ⟨d, hd, hd5⟩ h3 h4
  have hhp : spec_housingContribution p.housingStatus = 40 := by rw [h1]; rfl
  have hdp : spec_distanceContribution p.distanceFromClinic = 30 := by
    rw [hd]; simp [spec_distanceContribution, hd5]
  have hpp : spec_contactContribution p.phoneNumber = 25 := by rw [h3]; rfl
  have hnp : spec_noShowContribution (getNoShowCount cutoff hist) = 60 := by
    unfold spec_noShowContribution
    omega
  have h100 : (calculateRiskScore p cutoff hist).score = 100 := by
    rw [hscore, hhp, hdp, hpp, hnp]
    decide
  refine ⟨h100, ?_⟩
  rw [hcat, h100]
  rfl

/-- Witness for C1 at a concrete houseless patient 6 units out with no phone
and 4 recent no-shows. -/
theorem C1_risk_score_formula_witness :
    (calculateRiskScore ⟨.HOMELESS, some 6, none⟩ 0 [1, 2, 3, 4]).score = 100 ∧
    (calculateRiskScore ⟨.HOMELESS, some 6, none⟩ 0 [1, 2, 3, 4]).category = .HIGH :=
  (C1_risk_score_formula ⟨.HOMELESS, some 6, none⟩ 0 [1, 2, 3, 4]).2.2.2.2
    rfl ⟨6, rfl, by norm_num⟩ rfl (by decide)

/-- Claim C2: the blended final score follows the confidence tiers — at
least 80 takes the adjusted score, 50 to 79 takes the half-up-rounded mean
of base and adjusted, below 50 keeps the base — the category is recomputed
from the final score by the base engine's thresholds, and the three pinned
examples (confidence 85 / 60 / 30 with base 50, adjusted 70) give 70 / 60 /
50. -/
theorem C2_blending (base : RiskScoreResult) (ai : AIRiskAssessment) :
    (80 ≤ ai.confidence →
      (combineScores base ai).finalScore = ai.adjustedScore) ∧
    (50 ≤ ai.confidence → ai.confidence < 80 →
      (combineScores base ai).finalScore =
        jsRound (((base.score : ℚ) + (ai.adjustedScore : ℚ)) / 2)) ∧
    (ai.confidence < 50 →
      (combineScores base ai).finalScore = (base.score : Int)) ∧
    (∀ n : ℕ, (combineScores base ai).finalScore = (n : Int) →
      (combineScores base ai).category = getRiskCategory n) ∧
    (combineScores ⟨50, .MEDIUM, []⟩ ⟨70, 0, 85, "", [], "", []⟩).finalScore = 70 ∧
    (combineScores ⟨50, .MEDIUM, []⟩ ⟨70, 0, 60, "", [], "", []⟩).finalScore = 60 ∧
    (combineScores ⟨50, .MEDIUM, []⟩ ⟨70, 0, 30, "", [], "", []⟩).finalScore = 50 := by
  refine ⟨?_, ?_, ?_, ?_, rfl, ?_, rfl⟩
  · intro h
    simp [combineScores, h]
  · intro h1 h2
    have h3 : ¬ (80 ≤ ai.confidence) := by omega
    simp [combineScores, h1, h3]
  · intro h
    have h2 : ¬ (80 ≤ ai.confidence) := by omega
    have h3 : ¬ (50 ≤ ai.confidence) := by omega
    simp [combineScores, h2, h3]
  · intro n hn
    have hcat : (combineScores base ai).category =
        (if (combineScores base ai).finalScore ≤ 30 then RiskCategory.LOW
         else if (combineScores base ai).finalScore ≤ 60 then RiskCategory.MEDIUM
         else RiskCategory.HIGH) := by
      simp only [combineScores]
    rw [hcat, hn]
    unfold getRiskCategory
    split_ifs <;> first | rfl | omega
  · show jsRound (((50 : ℚ) + (70 : ℚ)) / 2) = 60
    unfold jsRound
    norm_num

/-- Witness for C2 at confidence 85 and at confidence 60 (base 50, adjusted
70). -/
theorem C2_blending_witness :
    (combineScores ⟨50, .MEDIUM, []⟩ ⟨70, 0, 85, "", [], "", []⟩).finalScore = 70 ∧
    (combineScores ⟨50, .MEDIUM, []⟩ ⟨70, 0, 60, "", [], "", []⟩).finalScore =
      jsRound (((50 : ℚ) + (70 : ℚ)) / 2) :=
  ⟨(C2_blending ⟨50, .MEDIUM, []⟩ ⟨70, 0, 85, "", [], "", []⟩).1 (by decide),
   (C2_blending ⟨50, .MEDIUM, []⟩ ⟨70, 0, 60, "", [], "", []⟩).2.1 (by decide) (by decide)⟩

/-- Claim C9, counterexample: with base score 10 and a raw reply carrying
adjusted score 100, the sanitized adjusted score is 100 — it differs from the
base by 90, refuting the claim's parenthetical that the adjusted score never
differs from the base by more than 20 (only the separate `adjustment` field
is clamped to the ±20 band). -/
theorem C9_counterexample :
    (sanitizeAIResult 10 ⟨some 100, some 90, some 90, none, none, none, none⟩).adjustedScore = 100 ∧
    ¬ ((sanitizeAIResult 10
        ⟨some 100, some 90, some 90, none, none, none, none⟩).adjustedScore
          - (10 : Int)).natAbs ≤ 20 := by
  decide

/-- Claim C9 as amended: every sanitized external-adjustment payload has its
adjusted score in 0–100, its adjustment field clamped to −20..20, its
confidence in 0–100, at most 5 recommendations and at most 5 key-factor
tags — but the adjusted score is not constrained to lie within ±20 of the
base score. -/
theorem C9_sanitized_bounds (base : Nat) (r : RawAIResult) :
    0 ≤ (sanitizeAIResult base r).adjustedScore ∧
    (sanitizeAIResult base r).adjustedScore ≤ 100 ∧
    -20 ≤ (sanitizeAIResult base r).adjustment ∧
    (sanitizeAIResult base r).adjustment ≤ 20 ∧
    0 ≤ (sanitizeAIResult base r).confidence ∧
    (sanitizeAIResult base r).confidence ≤ 100 ∧
    (sanitizeAIResult base r).recommendations.length ≤ 5 ∧
    (sanitizeAIResult base r).riskFactors.length ≤ 5 := by
  unfold sanitizeAIResult
  refine ⟨le_max_left 0 _, max_le (by norm_num) (min_le_left 100 _),
    le_max_left (-20) _, max_le (by norm_num) (min_le_left 20 _),
    le_max_left 0 _, max_le (by norm_num) (min_le_left 100 _), ?_, ?_⟩
  · cases r.recommendations with
    | none => simp
    | some l => simp [List.length_take]
  · cases r.riskFactors with
    | none => simp
    | some l => simp [List.length_take]

/-- Claim C4, counterexample: on input `no my friend is taking me` the
resolver's deterministic tier yields UNKNOWN with confidence 0.3 (the
anchored `^my (friend|...)` decline pattern is defeated by the leading
`no`), so with no external provider the resolver returns UNKNOWN, 0.3 —
not DECLINE with confidence at least 0.9. -/
theorem C4_counterexample :
    (parsePatientResponse false (fun _ => none) "no my friend is taking me").1.intent
      = PatientIntent.UNKNOWN ∧
    (parsePatientResponse false (fun _ => none) "no my friend is taking me").1.confidence
      = 0.3 ∧
    ¬ ((0.9 : ℚ) ≤ 0.3) := by
  have hrb : ruleBasedParsing "no my friend is taking me" =
      ⟨PatientIntent.UNKNOWN, 0.3, "no my friend is taking me"⟩ := rfl
  unfold parsePatientResponse
  rw [hrb]
  norm_num

/-- Claim C4 as amended: input `yes` resolves to CONFIRM with confidence at
least 0.9 and zero external invocations (the deterministic tier
short-circuits at confidence at least 0.9); input `my friend is taking me`
likewise resolves to DECLINE with confidence at least 0.9 and zero external
invocations; but input `no my friend is taking me` falls through the
deterministic tier as UNKNOWN with confidence 0.3 and is handed to the
external provider whenever one is available. -/
theorem C4_amended :
    (∀ avail ext,
      (parsePatientResponse avail ext "yes").1.intent = PatientIntent.CONFIRM_RIDE ∧
      (0.9 : ℚ) ≤ (parsePatientResponse avail ext "yes").1.confidence ∧
      (parsePatientResponse avail ext "yes").2 = 0) ∧
    (∀ avail ext,
      (parsePatientResponse avail ext "my friend is taking me").1.intent
        = PatientIntent.DECLINE_RIDE ∧
      (0.9 : ℚ) ≤ (parsePatientResponse avail ext "my friend is taking me").1.confidence ∧
      (parsePatientResponse avail ext "my friend is taking me").2 = 0) ∧
    ((ruleBasedParsing "no my friend is taking me").intent = PatientIntent.UNKNOWN ∧
      (ruleBasedParsing "no my friend is taking me").confidence = 0.3) ∧
    (∀ ext, (parsePatientResponse true ext "no my friend is taking me").2 = 1) := by
  have hyes : ruleBasedParsing "yes" =
      ⟨PatientIntent.CONFIRM_RIDE, 0.95, "yes"⟩ := rfl
  have hfriend : ruleBasedParsing "my friend is taking me" =
      ⟨PatientIntent.DECLINE_RIDE, 0.95, "my friend is taking me"⟩ := rfl
  have hno : ruleBasedParsing "no my friend is taking me" =
      ⟨PatientIntent.UNKNOWN, 0.3, "no my friend is taking me"⟩ := rfl
  refine ⟨?_, ?_, ?_, ?_⟩
  · intro avail ext
    unfold parsePatientResponse
    rw [hyes]
    norm_num
  · intro avail ext
    unfold parsePatientResponse
    rw [hfriend]
    norm_num
  · rw [hno]
    exact ⟨rfl, rfl⟩
  · intro ext
    unfold parsePatientResponse
    rw [hno]
    norm_num

/-- Claim C3, counterexample: for an appointment with a reachable patient
phone, the manual offer-ride route sets the offer-sent flag on the first
call, yet a second call in sequence — made after the flag is set — sends a
second outbound offer message (outcome `sent`, not a no-op and not an
error): two outbound messages in total, not exactly one. -/
theorem C3_counterexample :
    (routeOfferRide ⟨"A1", 0, .SCHEDULED, some 70, false, some "415", []⟩).1.rideOfferSent
      = true ∧
    ((routeOfferRide ⟨"A1", 0, .SCHEDULED, some 70, false, some "415", []⟩).2.1 ++
      (routeOfferRide
        (routeOfferRide ⟨"A1", 0, .SCHEDULED, some 70, false, some "415", []⟩).1).2.1).length
      = 2 ∧
    (routeOfferRide
      (routeOfferRide ⟨"A1", 0, .SCHEDULED, some 70, false, some "415", []⟩).1).2.2
      = OfferRouteOutcome.sent false := by
  decide

/-- Helper: re-running the offer sweep's per-appointment body on its own
output changes nothing and sends nothing — an appointment that sent an
offer has its flag set and fails the sweep's `rideOfferSent = false`
filter. -/
theorem processOfferAppt_second_run (now : Int) (a : OfferAppt) :
    processOfferAppt now (processOfferAppt now a).1 = ((processOfferAppt now a).1, [], 0) := by
  unfold processOfferAppt
  by_cases he : offerEligible now a = true
  · simp only [he, if_true]
    cases hc : contactPhone a.patientPhone a.caseworkerPhones with
    | none => simp [he, hc]
    | some ph =>
      have hflag : offerEligible now { a with rideOfferSent := true } = false := by
        simp [offerEligible]
      simp [hflag]
  · have he' : offerEligible now a = false := by
      cases h : offerEligible now a with
      | false => rfl
      | true => exact absurd h he
    simp [he']

/-- Claim C3 as amended: the scheduler's offer sweep never duplicates — each
appointment yields at most one offer message per run, the flag is set
whenever a message is sent, and a second run of the sweep on the updated
table sends zero messages and emits zero events (the `rideOfferSent = false`
filter excludes every already-offered appointment); the manual offer-ride
endpoint, by contrast, does not consult the flag and re-sends on repeat
calls. -/
theorem C3_amended (now : Int) (appts : List OfferAppt) (a : OfferAppt) :
    (sendRideOffers now (sendRideOffers now appts).1).2.1 = [] ∧
    (sendRideOffers now (sendRideOffers now appts).1).2.2 = 0 ∧
    (processOfferAppt now a).2.1.length ≤ 1 ∧
    ((processOfferAppt now a).1.rideOfferSent = true ∨
      (processOfferAppt now a).2.1 = []) := by
  refine ⟨?_, ?_, ?_, ?_⟩
  · simp only [sendRideOffers, List.map_map, Function.comp_def]
    have hmap : appts.map
        (fun x => (processOfferAppt now (processOfferAppt now x).1).2.1) =
        appts.map (fun _ => ([] : List SMSMessage)) :=
      List.map_congr_left (fun x _ => by rw [processOfferAppt_second_run])
    rw [hmap]
    simp
  · simp only [sendRideOffers, List.map_map, Function.comp_def]
    have hmap : appts.map
        (fun x => (processOfferAppt now (processOfferAppt now x).1).2.2) =
        appts.map (fun _ => (0 : Nat)) :=
      List.map_congr_left (fun x _ => by rw [processOfferAppt_second_run])
    rw [hmap]
    simp
  · unfold processOfferAppt
    by_cases he : offerEligible now a = true
    · simp only [he, if_true]
      cases hc : contactPhone a.patientPhone a.caseworkerPhones <;> simp
    · have he' : offerEligible now a = false := by
        cases h : offerEligible now a with
        | false => rfl
        | true => exact absurd h he
      simp [he']
  · unfold processOfferAppt
    by_cases he : offerEligible now a = true
    · simp only [he, if_true]
      cases hc : contactPhone a.patientPhone a.caseworkerPhones with
      | none => simp
      | some ph => simp
    · have he' : offerEligible now a = false := by
        cases h : offerEligible now a with
        | false => rfl
        | true => exact absurd h he
      simp [he']

/-- Helper: re-running the status-sync body on its own output is a no-op
that emits nothing — the first run already stored the mapped provider
status, so the change gate is closed on the second run. -/
theorem syncRide_idem (p : String → Option ProviderStatus) (r : SyncRide) :
    syncRide p (syncRide p r).1 = ((syncRide p r).1, []) := by
  by_cases hact : isActiveRide r.status = true
  · cases hu : r.uberRideId with
    | none =>
      have h1 : syncRide p r = (r, []) := by
        unfold syncRide
        simp [hact, hu]
      rw [h1, h1]
    | some rid =>
      cases hp : p rid with
      | none =>
        have h1 : syncRide p r = (r, []) := by
          unfold syncRide
          simp [hact, hu, hp]
        rw [h1, h1]
      | some u =>
        have h1 : (syncRide p r).1 = { r with status := statusMap u } := by
          unfold syncRide
          simp only [hact, if_true, hu, hp]
          split <;> rfl
        rw [h1]
        unfold syncRide
        by_cases hact2 : isActiveRide (statusMap u) = true
        · simp [hact2, hu, hp]
        · have : isActiveRide (statusMap u) = false := by
            cases h : isActiveRide (statusMap u) with
            | false => rfl
            | true => exact absurd h hact2
          simp [this]
  · have hact' : isActiveRide r.status = false := by
      cases h : isActiveRide r.status with
      | false => rfl
      | true => exact absurd h hact
    have h1 : syncRide p r = (r, []) := by
      unfold syncRide
      simp [hact']
    rw [h1, h1]

/-- Claim C6: running the status-sync sweep a second time against an
unchanged provider snapshot emits zero events; and the per-ride body never
emits anything on a write that leaves the stored status unchanged. -/
theorem C6_sync_idempotent (p : String → Option ProviderStatus)
    (rides : List SyncRide) :
    (updateRideStatuses p (updateRideStatuses p rides).1).2 = [] ∧
    ∀ r : SyncRide, (syncRide p r).2 = [] ∨ (syncRide p r).1.status ≠ r.status := by
  constructor
  · simp only [updateRideStatuses, List.map_map, Function.comp_def]
    have hmap : rides.map (fun r => (syncRide p (syncRide p r).1).2) =
        rides.map (fun _ => ([] : List SyncEvent)) :=
      List.map_congr_left (fun r _ => by rw [syncRide_idem])
    rw [hmap]
    simp
  · intro r
    by_cases hact : isActiveRide r.status = true
    · cases hu : r.uberRideId with
      | none =>
        left
        unfold syncRide
        simp [hact, hu]
      | some rid =>
        cases hp : p rid with
        | none =>
          left
          unfold syncRide
          simp [hact, hu, hp]
        | some u =>
          by_cases hch : statusMap u = r.status
          · left
            unfold syncRide
            simp [hact, hu, hp, hch]
          · right
            unfold syncRide
            simp [hact, hu, hp, hch]
    · left
      have hact' : isActiveRide r.status = false := by
        cases h : isActiveRide r.status with
        | false => rfl
        | true => exact absurd h hact
      unfold syncRide
      simp [hact']

/-- Claim C7, counterexample: a ride whose stored status is already
DRIVER_ASSIGNED (here because the previous sweep observed the provider's
`en_route`) gets no driver-arriving notice when the provider transitions
into `arrived`, despite a reachable patient phone — `arrived` maps to
DRIVER_ASSIGNED, the change gate sees no status change, and the second
sweep emits nothing at all. -/
theorem C7_counterexample :
    contactPhone (some "415") ([] : List String) = some "415" ∧
    ((syncRide (fun _ => some ProviderStatus.en_route)
        ⟨"R1", "A1", .SCHEDULED, some "U1", some "415", []⟩).1).status
      = RideStatus.DRIVER_ASSIGNED ∧
    (syncRide (fun _ => some ProviderStatus.arrived)
      ((syncRide (fun _ => some ProviderStatus.en_route)
        ⟨"R1", "A1", .SCHEDULED, some "U1", some "415", []⟩).1)).2 = [] := by
  decide

/-- Claim C7 as amended: the sweep dispatches the driver-arriving notice
only when it observes the provider's `arrived` on a ride whose stored
status differs from DRIVER_ASSIGNED (so the mapped status changes); in that
case — with a reachable contact — it emits exactly the status-change event
followed by the arriving notice.  A transition into `arrived` observed on a
ride already stored as DRIVER_ASSIGNED produces no notice. -/
theorem C7_arrival_notice (p : String → Option ProviderStatus) (r : SyncRide)
    (rid ph : String) (hact : isActiveRide r.status = true)
    (hu : r.uberRideId = some rid) (hp : p rid = some ProviderStatus.arrived)
    (hst : r.status ≠ RideStatus.DRIVER_ASSIGNED)
    (hph : contactPhone r.patientPhone r.caseworkerPhones = some ph) :
    (syncRide p r).2 =
      [.rideStatusUpdate r.id r.status .DRIVER_ASSIGNED,
       .driverArrivingSMS r.id ph] := by
  have hne : RideStatus.DRIVER_ASSIGNED ≠ r.status := Ne.symm hst
  unfold syncRide
  simp [hact, hu, hp, hph, statusMap, hne]

/-- Witness for C7's amended theorem: a SCHEDULED ride whose provider
reports `arrived` and whose patient phone is on file. -/
theorem C7_arrival_notice_witness :
    (syncRide (fun _ => some ProviderStatus.arrived)
      ⟨"R1", "A1", .SCHEDULED, some "U1", some "415", []⟩).2 =
      [.rideStatusUpdate "R1" .SCHEDULED .DRIVER_ASSIGNED,
       .driverArrivingSMS "R1" "415"] :=
  C7_arrival_notice (fun _ => some ProviderStatus.arrived)
    ⟨"R1", "A1", .SCHEDULED, some "U1", some "415", []⟩ "U1" "415"
    rfl rfl rfl (by decide) rfl

/-- Claim C5: under a provider snapshot in sync with the stored status, the
cancel route refuses a COMPLETED or IN_PROGRESS ride with a conflict error,
leaving the ride row and the provider state unchanged and emitting nothing;
on any other non-terminal status it transitions the ride to CANCELLED and
emits the status-change notification. -/
theorem C5_cancel_conflict (p : String → Option ProviderStatus) (r : SyncRide)
    (rid : String) (u : ProviderStatus) (hu : r.uberRideId = some rid)
    (hp : p rid = some u) (hsync : r.status = statusMap u) :
    ((r.status = .COMPLETED ∨ r.status = .IN_PROGRESS) →
      (∃ msg, (routeCancelRide p r).2.2.1 = .cancelFailed msg) ∧
      (routeCancelRide p r).1 = r ∧
      (routeCancelRide p r).2.1 rid = some u ∧
      (routeCancelRide p r).2.2.2 = []) ∧
    (r.status ≠ .COMPLETED → r.status ≠ .IN_PROGRESS → r.status ≠ .CANCELLED →
      (routeCancelRide p r).1.status = .CANCELLED ∧
      (routeCancelRide p r).2.2.1 = .ok ∧
      (routeCancelRide p r).2.2.2 = [.rideStatusUpdate r.id r.status .CANCELLED]) := by
  cases u <;> simp only [statusMap] at hsync
  case scheduled =>
    refine ⟨fun h => ?_, fun _ _ _ => ?_⟩
    · rw [hsync] at h
      rcases h with h | h <;> exact absurd h (by decide)
    · unfold routeCancelRide uberCancelRide
      simp [hu, hp]
  case driver_assigned =>
    refine ⟨fun h => ?_, fun _ _ _ => ?_⟩
    · rw [hsync] at h
      rcases h with h | h <;> exact absurd h (by decide)
    · unfold routeCancelRide uberCancelRide
      simp [hu, hp]
  case en_route =>
    refine ⟨fun h => ?_, fun _ _ _ => ?_⟩
    · rw [hsync] at h
      rcases h with h | h <;> exact absurd h (by decide)
    · unfold routeCancelRide uberCancelRide
      simp [hu, hp]
  case arrived =>
    refine ⟨fun h => ?_, fun _ _ _ => ?_⟩
    · rw [hsync] at h
      rcases h with h | h <;> exact absurd h (by decide)
    · unfold routeCancelRide uberCancelRide
      simp [hu, hp]
  case in_progress =>
    refine ⟨fun _ => ?_, fun _ h2 _ => absurd hsync h2⟩
    unfold routeCancelRide uberCancelRide
    simp [hu, hp]
  case completed =>
    refine ⟨fun _ => ?_, fun h1 _ _ => absurd hsync h1⟩
    unfold routeCancelRide uberCancelRide
    simp [hu, hp]
  case cancelled =>
    refine ⟨fun h => ?_, fun _ _ h3 => absurd hsync h3⟩
    rw [hsync] at h
    rcases h with h | h <;> exact absurd h (by decide)

/-- Witness for C5 at a COMPLETED ride (conflict, unchanged) and at a
SCHEDULED ride (cancelled with notification). -/
theorem C5_cancel_conflict_witness :
    ((∃ msg, (routeCancelRide (fun _ => some ProviderStatus.completed)
        ⟨"R1", "A1", .COMPLETED, some "U1", none, []⟩).2.2.1 =
          RouteCancelOutcome.cancelFailed msg) ∧
      (routeCancelRide (fun _ => some ProviderStatus.completed)
        ⟨"R1", "A1", .COMPLETED, some "U1", none, []⟩).1 =
        ⟨"R1", "A1", .COMPLETED, some "U1", none, []⟩ ∧
      (routeCancelRide (fun _ => some ProviderStatus.completed)
        ⟨"R1", "A1", .COMPLETED, some "U1", none, []⟩).2.1 "U1" =
          some ProviderStatus.completed ∧
      (routeCancelRide (fun _ => some ProviderStatus.completed)
        ⟨"R1", "A1", .COMPLETED, some "U1", none, []⟩).2.2.2 = []) ∧
    ((routeCancelRide (fun _ => some ProviderStatus.scheduled)
        ⟨"R2", "A2", .SCHEDULED, some "U2", none, []⟩).1.status = .CANCELLED ∧
      (routeCancelRide (fun _ => some ProviderStatus.scheduled)
        ⟨"R2", "A2", .SCHEDULED, some "U2", none, []⟩).2.2.1 = .ok ∧
      (routeCancelRide (fun _ => some ProviderStatus.scheduled)
        ⟨"R2", "A2", .SCHEDULED, some "U2", none, []⟩).2.2.2 =
        [.rideStatusUpdate "R2" .SCHEDULED .CANCELLED]) :=
  ⟨(C5_cancel_conflict (fun _ => some ProviderStatus.completed)
      ⟨"R1", "A1", .COMPLETED, some "U1", none, []⟩ "U1" .completed
      rfl rfl rfl).1 (Or.inl rfl),
   (C5_cancel_conflict (fun _ => some ProviderStatus.scheduled)
      ⟨"R2", "A2", .SCHEDULED, some "U2", none, []⟩ "U2" .scheduled
      rfl rfl rfl).2 (by decide) (by decide) (by decide)⟩

/-- Claim C8, evaluation of the failing behaviour: the SMS webhook never
touches the AI risk cache — in particular, for a concrete state holding a
valid cached assessment for appointment A1 and a prior outbound message to
the sender, an arriving inbound message leaves the A1 cache entry in place
instead of invalidating it (the only caller of `invalidateCache` is the
outbound offer-ride route). -/
theorem C8_webhook_keeps_cache :
    (∀ ca ext fr fu (st : SysState) sender body,
      (smsWebhook ca ext fr fu st sender body).1.cache = st.cache) ∧
    (smsWebhook true (fun _ => none) "R9" "U9"
      ⟨[⟨"A1", "415", "offer", .OUTBOUND, .DELIVERED⟩],
       [⟨"A1", 1000, .SCHEDULED, true, none, some "415", [], "clinic"⟩],
       [], [("A1", ⟨80, 90, "because", [], [], none, 500⟩)]⟩ "415" "YES").1.cache
      = [("A1", ⟨80, 90, "because", [], [], none, 500⟩)] := by
  have hgen : ∀ ca ext fr fu (st : SysState) sender body,
      (smsWebhook ca ext fr fu st sender body).1.cache = st.cache := by
    intro ca ext fr fu st sender body
    simp only [smsWebhook]
    repeat' split
    all_goals rfl
  exact ⟨hgen, hgen true (fun _ => none) "R9" "U9" _ "415" "YES"⟩

/-- Claim C10: every recorded inbound message carries the `appointmentId` of
the most recent outbound message to the sender's number (empty when none
exists); and when no prior outbound message to that number exists, the
webhook records the inbound message with an empty association and does
nothing else — no ride, no appointment change, no reply, no external
intent-inference invocation. -/
theorem C10_inbound_association :
    (∀ (log : List SMSMessage) (sender body : String),
      (handleIncomingSMS log sender body).2 =
        { appointmentId :=
            match findRecentOutbound log sender with
            | some m => m.appointmentId
            | none => ""
          phoneNumber := sender
          message := body
          direction := .INBOUND
          status := .RECEIVED } :: log) ∧
    (∀ ca ext fr fu (st : SysState) sender body,
      findRecentOutbound st.messages sender = none →
      smsWebhook ca ext fr fu st sender body =
        ({ st with messages :=
            { appointmentId := ""
              phoneNumber := sender
              message := body
              direction := .INBOUND
              status := .RECEIVED } :: st.messages }, 0)) := by
  constructor
  · intro log sender body
    unfold handleIncomingSMS
    cases h : findRecentOutbound log sender with
    | none => simp [h]
    | some m =>
      by_cases hm : m.appointmentId = ""
      · simp [h, hm]
      · simp [h, hm]
  · intro ca ext fr fu st sender body h
    have h2 : handleIncomingSMS st.messages sender body =
        (none, { appointmentId := ""
                 phoneNumber := sender
                 message := body
                 direction := .INBOUND
                 status := .RECEIVED } :: st.messages) := by
      unfold handleIncomingSMS
      simp [h]
    simp [smsWebhook, h2]

/-- Witness for C10 on an empty message log: the inbound message is recorded
with an empty association and the state is otherwise untouched. -/
theorem C10_inbound_association_witness :
    smsWebhook true (fun _ => none) "R0" "U0" ⟨[], [], [], []⟩ "555" "hello" =
      (⟨[⟨"", "555", "hello", .INBOUND, .RECEIVED⟩], [], [], []⟩, 0) :=
  C10_inbound_association.2 true (fun _ => none) "R0" "U0" ⟨[], [], [], []⟩
    "555" "hello" rfl

end RideKeeper
